import Mathlib

/-!
Verification development for the MotoApp motorcycle viewer component
(`src/components/MotorcycleModelViewer.tsx`).

The component's core logic is embedded shallowly:

* the material classification pass of `loadMotorcycleModel` (the ordered
  if/else chain over lower-cased material and mesh names plus the
  vertex-count test) becomes `classifyMesh`;
* the texture-clearing traversal of `createReactNativeCompatibleLoader`'s
  wrapped `parse` success callback becomes `clearNode`;
* the single-touch rotation branch and the two-touch pinch branch of
  `onPanResponderMove` become `onSingleTouchMove` and `onPinchMove`;
* `createFallbackModel` and the model-load failure handler become
  `fallbackModel` and `onModelLoadFailure`;
* the `render` closure of `onContextCreate` becomes `renderFrame`.

Numeric state (rotations, zoom, camera coordinates) is modelled over `ℝ`;
names are `String`s, vertex counts are `Nat`.
-/

namespace MotoApp

/-! ## Material classifier (`loadMotorcycleModel`, lines 834–966) -/

/-- The fixed taxonomy of motorcycle part categories. -/
inductive MaterialCategory where
  | BodyPaint
  | Chrome
  | Rubber
  | Glass
  | Light
  | Seat
  | AccentDetail
  | CarbonFiber
  | Default
deriving DecidableEq, Repr

/-- `occursIn needle hay`: `needle` occurs as a contiguous run inside `hay`. -/
def occursIn (needle : List Char) : List Char → Bool
  | [] => needle.isEmpty
  | c :: rest => needle.isPrefixOf (c :: rest) || occursIn needle rest

/-- JavaScript `hay.includes(needle)`: substring containment. -/
def nameIncludes (hay needle : String) : Bool :=
  occursIn needle.toList hay.toList

/-- JavaScript `s.toLowerCase()` on the ASCII names used by the model. -/
def lowerName (s : String) : String :=
  ⟨s.toList.map Char.toLower⟩

/-- The geometry test of the first branch:
`child.geometry && child.geometry.attributes && child.geometry.attributes.position
&& child.geometry.attributes.position.count > 5000`.
`none` models a mesh whose geometry carries no position attribute. -/
def vertexCountOver5000 : Option Nat → Bool
  | some n => 5000 < n
  | none => false

/-- The ordered if/else chain of the material classification pass in
`loadMotorcycleModel`.  `rawMaterialName` is `material.name || ""`,
`rawMeshName` is `child.name || ""`; both are lower-cased first, exactly as
in the source.  Each branch tests the same `includes` calls, in the same
order, as the source. -/
def classifyMesh (rawMaterialName rawMeshName : String)
    (vertexCount : Option Nat) : MaterialCategory :=
  let materialName := lowerName rawMaterialName
  let meshName := lowerName rawMeshName
  if nameIncludes materialName "body" || nameIncludes materialName "fairing" ||
      nameIncludes materialName "tank" || nameIncludes meshName "body" ||
      nameIncludes meshName "fairing" || nameIncludes meshName "tank" ||
      nameIncludes meshName "paint" || vertexCountOver5000 vertexCount then
    .BodyPaint
  else if nameIncludes materialName "metal" || nameIncludes materialName "chrome" ||
      nameIncludes meshName "metal" || nameIncludes meshName "chrome" ||
      nameIncludes meshName "silver" || nameIncludes meshName "exhaust" then
    .Chrome
  else if nameIncludes materialName "rubber" || nameIncludes materialName "tire" ||
      nameIncludes meshName "tire" || nameIncludes meshName "wheel" ||
      nameIncludes meshName "rubber" then
    .Rubber
  else if nameIncludes materialName "glass" || nameIncludes materialName "window" ||
      nameIncludes materialName "screen" || nameIncludes materialName "visor" ||
      nameIncludes meshName "glass" || nameIncludes meshName "window" ||
      nameIncludes meshName "screen" || nameIncludes meshName "visor" then
    .Glass
  else if nameIncludes materialName "light" || nameIncludes materialName "headlight" ||
      nameIncludes materialName "taillight" || nameIncludes meshName "light" ||
      nameIncludes meshName "lamp" || nameIncludes meshName "led" then
    .Light
  else if nameIncludes materialName "seat" || nameIncludes meshName "seat" ||
      nameIncludes meshName "saddle" then
    .Seat
  else if nameIncludes materialName "accent" || nameIncludes materialName "detail" ||
      nameIncludes materialName "stripe" || nameIncludes materialName "logo" ||
      nameIncludes meshName "accent" || nameIncludes meshName "detail" ||
      nameIncludes meshName "stripe" || nameIncludes meshName "logo" ||
      nameIncludes meshName "badge" then
    .AccentDetail
  else if nameIncludes materialName "carbon" || nameIncludes meshName "carbon" ||
      nameIncludes meshName "fiber" then
    .CarbonFiber
  else
    .Default

/-! ## Model Loader texture clearing
(`createReactNativeCompatibleLoader`, lines 49–104) -/

/-- The texture slots of a parsed GLTF material that the wrapped loader's
success callback nulls out, plus its `needsUpdate` flag.  A slot holds
`some id` when the parse attached a texture, `none` when it is null. -/
structure GLTFMaterial where
  map : Option Nat
  normalMap : Option Nat
  roughnessMap : Option Nat
  metalnessMap : Option Nat
  aoMap : Option Nat
  emissiveMap : Option Nat
  needsUpdate : Bool
deriving DecidableEq, Repr

/-- `child.material` on a mesh: absent (falsy), a single material, or an
array of materials. -/
inductive MaterialSlot where
  | noMaterial : MaterialSlot
  | single : GLTFMaterial → MaterialSlot
  | array : List GLTFMaterial → MaterialSlot
deriving DecidableEq, Repr

/-- A node of the parsed scene graph: a mesh (with its material slot) or a
group of children, as traversed by `gltf.scene.traverse`. -/
inductive SceneNode where
  | mesh : String → MaterialSlot → SceneNode
  | group : String → List SceneNode → SceneNode
deriving Repr

/-- The per-material body of the wrapped `parse` success callback:
`material.map = null; … material.emissiveMap = null; material.needsUpdate = true`. -/
def clearTextures (m : GLTFMaterial) : GLTFMaterial :=
  { m with
    map := none
    normalMap := none
    roughnessMap := none
    metalnessMap := none
    aoMap := none
    emissiveMap := none
    needsUpdate := true }

/-- The guarded slot update: `if (child.isMesh && child.material)` wraps a
single material into a one-element array and clears every element. -/
def clearSlot : MaterialSlot → MaterialSlot
  | .noMaterial => .noMaterial
  | .single m => .single (clearTextures m)
  | .array ms => .array (ms.map clearTextures)

mutual

/-- The `gltf.scene.traverse` of the wrapped loader's success callback,
clearing every mesh's material textures. -/
def clearNode : SceneNode → SceneNode
  | .mesh name slot => .mesh name (clearSlot slot)
  | .group name cs => .group name (clearNodes cs)

/-- `clearNode` mapped over a list of child nodes. -/
def clearNodes : List SceneNode → List SceneNode
  | [] => []
  | c :: cs => clearNode c :: clearNodes cs

end

/-- The materials held by a material slot. -/
def slotMaterials : MaterialSlot → List GLTFMaterial
  | .noMaterial => []
  | .single m => [m]
  | .array ms => ms

mutual

/-- All materials of all meshes in a scene graph. -/
def nodeMaterials : SceneNode → List GLTFMaterial
  | .mesh _ slot => slotMaterials slot
  | .group _ cs => nodesMaterials cs

/-- `nodeMaterials` over a list of child nodes. -/
def nodesMaterials : List SceneNode → List GLTFMaterial
  | [] => []
  | c :: cs => nodeMaterials c ++ nodesMaterials cs

end

/-- A material with every texture slot occupied, used to exercise the
clearing pass on a concrete scene. -/
def sampleDirtyMaterial : GLTFMaterial :=
  ⟨some 1, some 2, some 3, some 4, some 5, some 6, false⟩

/-- A concrete parsed scene: one mesh whose slot holds an array of
materials, one mesh with a single material, one bare mesh. -/
def sampleScene : SceneNode :=
  .group "root"
    [ .mesh "hull" (.array [sampleDirtyMaterial, sampleDirtyMaterial])
    , .mesh "shell" (.single sampleDirtyMaterial)
    , .mesh "bare" .noMaterial ]

/-- The cleared form of `sampleDirtyMaterial`. -/
def sampleClearedMaterial : GLTFMaterial := clearTextures sampleDirtyMaterial

end MotoApp

namespace MotoApp

/-! ## Constructed objects, fallback model and viewer state
(`createFallbackModel`, lines 1047–1094; failure handlers at 640–649 and
1030–1037) -/

/-- A three-component vector over the reals (positions, scales). -/
structure Vec3 where
  x : ℝ
  y : ℝ
  z : ℝ

/-- The geometry of a constructed object: `new BoxGeometry(w, h, d)` for
primitive boxes, `buffer` for geometry imported from a parsed asset. -/
inductive Geometry where
  | box : (width height depth : ℝ) → Geometry
  | buffer : (vertexCount : Nat) → Geometry

/-- `MeshStandardMaterial({ color })`, by hex color. -/
structure MeshStandardMaterial where
  color : Nat

/-- A constructed three.js object: a mesh (geometry, optional material,
position) or a group with children, position, y-rotation and scale. -/
inductive Object3D where
  | mesh : Geometry → Option MeshStandardMaterial → Vec3 → Object3D
  | group : List Object3D → Vec3 → ℝ → Vec3 → Object3D

/-- Whether an object is a mesh node. -/
def isMeshNode : Object3D → Bool
  | .mesh _ _ _ => true
  | .group _ _ _ _ => false

/-- The number of direct mesh children of an object (0 for a mesh). -/
def childMeshCount : Object3D → Nat
  | .mesh _ _ _ => 0
  | .group cs _ _ _ => (cs.filter isMeshNode).length

/-- The number of direct children of an object. -/
def childCount : Object3D → Nat
  | .mesh _ _ _ => 0
  | .group cs _ _ _ => cs.length

mutual

/-- Every geometry in the object tree is a primitive box. -/
def onlyBoxGeometry : Object3D → Bool
  | .mesh g _ _ =>
    match g with
    | .box _ _ _ => true
    | .buffer _ => false
  | .group cs _ _ _ => onlyBoxGeometryAll cs

/-- `onlyBoxGeometry` over a list of children. -/
def onlyBoxGeometryAll : List Object3D → Bool
  | [] => true
  | c :: cs => onlyBoxGeometry c && onlyBoxGeometryAll cs

end

/-- The group built by `createFallbackModel`: body, seat, front wheel and
rear wheel boxes, positioned as in the source, with the group placed at
`(1, 0, 0)`, rotated by `π * 0.25` about y and scaled by `1.5`. -/
noncomputable def fallbackModel : Object3D :=
  let body := Object3D.mesh (.box 2 0.4 0.7) none ⟨0, 0.5, 0⟩
  let seat := Object3D.mesh (.box 1 0.2 0.5) (some ⟨0x222222⟩) ⟨-0.2, 0.7, 0⟩
  let frontWheel := Object3D.mesh (.box 0.1 0.6 0.6) (some ⟨0x111111⟩) ⟨1.1, 0.3, 0⟩
  let rearWheel := Object3D.mesh (.box 0.1 0.6 0.6) (some ⟨0x111111⟩) ⟨-1.1, 0.3, 0⟩
  Object3D.group [body, seat, frontWheel, rearWheel]
    ⟨1.0, 0, 0⟩ (Real.pi * 0.25) ⟨1.5, 1.5, 1.5⟩

/-- The component state touched by the loading pipeline: `loading` and
`error` state hooks, the scene's children and `bikeModelRef`. -/
structure ViewerState where
  loading : Bool
  error : Option String
  sceneChildren : List Object3D
  bikeModel : Option Object3D

/-- `createFallbackModel(scene)`: builds the fallback group, adds it to the
scene and sets the model reference. Uses only primitive box geometry and no
I/O, so it is a total function. -/
noncomputable def createFallbackModel (s : ViewerState) : ViewerState :=
  { s with
    sceneChildren := s.sceneChildren ++ [fallbackModel]
    bikeModel := some fallbackModel }

/-- The model-load failure handler (lines 640–649 and 1030–1037):
`setError(...)`, `setLoading(false)`, `createFallbackModel(scene)`. -/
noncomputable def onModelLoadFailure (msg : String) (s : ViewerState) : ViewerState :=
  createFallbackModel { s with error := some msg, loading := false }

end MotoApp

namespace MotoApp

/-! ## Gesture-to-transform controller (`onPanResponderMove`, lines 423–487)
and camera setup (lines 515–519) -/

/-- The rotation state: `rotationRef.current` and the model's applied
`rotation.x` / `rotation.y`. -/
structure RotationState where
  rx : ℝ
  ry : ℝ
  modelRx : ℝ
  modelRy : ℝ

/-- The single-touch branch of `onPanResponderMove`: horizontal delta
`gestureState.dx * 0.0004` added to yaw, vertical delta
`gestureState.dy * (0.0004 - 0.0003)` added to pitch, pitch clamped to
`[-π/3, π/3]`, both applied to the model's rotation. -/
noncomputable def onSingleTouchMove (s : RotationState) (dx dy : ℝ) : RotationState :=
  let sensitivity : ℝ := 0.0004
  let deltaY := dx * sensitivity
  let deltaX := dy * (sensitivity - 0.0003)
  let ry := s.ry + deltaY
  let rxRaw := s.rx + deltaX
  let rx := max (-(Real.pi / 3)) (min (Real.pi / 3) rxRaw)
  { rx := rx, ry := ry, modelRx := rx, modelRy := ry }

/-- A JavaScript number as produced by the pinch pipeline: a genuine
(finite) real, one of the two infinities, or NaN.  Finite arithmetic is
modelled exactly over `ℝ`; the IEEE special values that the source's
division can produce are explicit.  (Signed zero is not distinguished.) -/
inductive JSNum where
  | real : ℝ → JSNum
  | posInf : JSNum
  | negInf : JSNum
  | nan : JSNum

/-- JavaScript division: `0 / 0 = NaN`, `a / 0 = ±Infinity` for nonzero
`a`, finite quotients exact, NaN propagating, `±Infinity / ±Infinity = NaN`. -/
noncomputable def jsDivNum : JSNum → JSNum → JSNum
  | .nan, _ => .nan
  | _, .nan => .nan
  | .real a, .real b =>
    if b = 0 then
      if a = 0 then .nan else if 0 < a then .posInf else .negInf
    else .real (a / b)
  | .real _, .posInf => .real 0
  | .real _, .negInf => .real 0
  | .posInf, .real b => if 0 ≤ b then .posInf else .negInf
  | .negInf, .real b => if 0 ≤ b then .negInf else .posInf
  | .posInf, .posInf => .nan
  | .posInf, .negInf => .nan
  | .negInf, .posInf => .nan
  | .negInf, .negInf => .nan

/-- JavaScript multiplication: finite products exact, NaN propagating,
`0 * ±Infinity = NaN`, otherwise signs as usual. -/
noncomputable def jsMul : JSNum → JSNum → JSNum
  | .nan, _ => .nan
  | _, .nan => .nan
  | .real a, .real b => .real (a * b)
  | .real a, .posInf => if a = 0 then .nan else if 0 < a then .posInf else .negInf
  | .real a, .negInf => if a = 0 then .nan else if 0 < a then .negInf else .posInf
  | .posInf, .real b => if b = 0 then .nan else if 0 < b then .posInf else .negInf
  | .negInf, .real b => if b = 0 then .nan else if 0 < b then .negInf else .posInf
  | .posInf, .posInf => .posInf
  | .posInf, .negInf => .negInf
  | .negInf, .posInf => .negInf
  | .negInf, .negInf => .posInf

/-- `Math.min(a, x)` with finite first argument: NaN propagating. -/
noncomputable def jsMin (a : ℝ) : JSNum → JSNum
  | .nan => .nan
  | .posInf => .real a
  | .negInf => .negInf
  | .real b => .real (min a b)

/-- `Math.max(a, x)` with finite first argument: NaN propagating. -/
noncomputable def jsMax (a : ℝ) : JSNum → JSNum
  | .nan => .nan
  | .posInf => .posInf
  | .negInf => .real a
  | .real b => .real (max a b)

/-- A three-component vector of JavaScript numbers (camera position). -/
structure JSVec3 where
  x : JSNum
  y : JSNum
  z : JSNum

/-- The camera state: position and the `lookAt` target (the latter is only
ever set from real literals). -/
structure Camera where
  position : JSVec3
  lookTarget : Vec3

/-- The camera established at setup (lines 517–518):
`camera.position.set(1.0, 0.4, 5.0); camera.lookAt(1.0, -0.2, 0)`. -/
noncomputable def initialCamera : Camera :=
  { position := ⟨.real 1.0, .real 0.4, .real 5.0⟩, lookTarget := ⟨1.0, -0.2, 0⟩ }

/-- The initial zoom factor: `zoomRef = useRef(2.0)`. -/
noncomputable def initialZoomFactor : JSNum := .real 2.0

/-- The pinch-session transients `pinchDataRef.current`.  The recorded
initial distance is always a computed distance, hence a genuine real; the
recorded initial zoom is a snapshot of `zoomRef.current` and can carry any
JavaScript number, NaN included. -/
structure PinchSession where
  initialDistance : Option ℝ
  initialZoom : Option JSNum

/-- The outcome of one pinch move event: updated session transients, the
stored zoom factor `zoomRef.current`, and the repositioned camera. -/
structure PinchResult where
  session : PinchSession
  zoom : JSNum
  camera : Camera

/-- `Math.sqrt((x2-x1)^2 + (y2-y1)^2)` over the two touch points: a sum of
squares is nonnegative, so the result is a genuine real. -/
noncomputable def touchDistance (t1 t2 : ℝ × ℝ) : ℝ :=
  Real.sqrt ((t2.1 - t1.1) ^ 2 + (t2.2 - t1.2) ^ 2)

/-- The two-touch branch of `onPanResponderMove`: compute the inter-touch
distance; if `initialDistance` is falsy (unset or zero) record the distance
and current zoom; set the zoom to
`Math.max(0.5, Math.min(12, initialZoom * (initialDistance / distance)))`
in JavaScript arithmetic — so coincident touches on the first frame of a
pinch record distance 0 and compute `0 / 0 = NaN`, which `Math.min` and
`Math.max` propagate into `zoomRef` — then reposition the camera to
`(1.0, 0.75, 4.0 * zoom / 2.0)` looking at `(1.0, -0.3, 0)`. -/
noncomputable def onPinchMove (pd : PinchSession) (zoom : JSNum) (t1 t2 : ℝ × ℝ) :
    PinchResult :=
  let distance := touchDistance t1 t2
  let pd' : PinchSession :=
    if pd.initialDistance = none ∨ pd.initialDistance = some 0 then
      { initialDistance := some distance, initialZoom := some zoom }
    else pd
  let zoomFactor := jsDivNum (.real (pd'.initialDistance.getD 0)) (.real distance)
  let newZoom := jsMul (pd'.initialZoom.getD (.real 0)) zoomFactor
  let zoomClamped := jsMax 0.5 (jsMin 12 newZoom)
  { session := pd'
    zoom := zoomClamped
    camera :=
      { position := ⟨.real 1.0, .real 0.75, jsDivNum (jsMul (.real 4.0) zoomClamped) (.real 2.0)⟩
        lookTarget := ⟨1.0, -0.3, 0⟩ } }

end MotoApp

namespace MotoApp

/-! ## Render loop (`onContextCreate`, lines 651–665) -/

/-- The state observed and mutated by one call of the `render` closure.
`mounted` records whether the component is still mounted; nothing in the
source ever consults it. -/
structure RenderLoopState where
  mounted : Bool
  autoRotate : Bool
  modelPresent : Bool
  modelYaw : ℝ
  framesDrawn : Nat
  nextFrameScheduled : Bool

/-- One call of the `render` closure: `requestAnimationFrame(render)` is
its unconditional first statement, then the auto-rotate yaw increment and
one draw call. -/
noncomputable def renderFrame (s : RenderLoopState) : RenderLoopState :=
  { s with
    nextFrameScheduled := true
    modelYaw :=
      if s.autoRotate && s.modelPresent then s.modelYaw + 0.005 else s.modelYaw
    framesDrawn := s.framesDrawn + 1 }

end MotoApp

namespace MotoApp

/-! ## Helper lemmas -/

/-- Clearing a material leaves all six texture slots null. -/
theorem clearTextures_slots (m : GLTFMaterial) :
    (clearTextures m).map = none ∧ (clearTextures m).normalMap = none ∧
    (clearTextures m).roughnessMap = none ∧ (clearTextures m).metalnessMap = none ∧
    (clearTextures m).aoMap = none ∧ (clearTextures m).emissiveMap = none :=
  ⟨rfl, rfl, rfl, rfl, rfl, rfl⟩

/-- Every material surviving a cleared slot is a cleared material. -/
theorem slotMaterials_clearSlot (slot : MaterialSlot) (m : GLTFMaterial)
    (hm : m ∈ slotMaterials (clearSlot slot)) :
    ∃ m0, m = clearTextures m0 := by
  cases slot with
  | noMaterial => simp [clearSlot, slotMaterials] at hm
  | single m0 =>
    simp [clearSlot, slotMaterials] at hm
    exact ⟨m0, hm⟩
  | array ms =>
    simp [clearSlot, slotMaterials] at hm
    obtain ⟨m0, _, hm0⟩ := hm
    exact ⟨m0, hm0.symm⟩

mutual

/-- Every material of the cleared scene graph arises by clearing one. -/
theorem nodeMaterials_clearNode : ∀ (n : SceneNode) (m : GLTFMaterial),
    m ∈ nodeMaterials (clearNode n) → ∃ m0, m = clearTextures m0
  | .mesh _ slot, m, hm => slotMaterials_clearSlot slot m hm
  | .group _ cs, m, hm => nodesMaterials_clearNodes cs m hm

/-- `nodeMaterials_clearNode` over a list of children. -/
theorem nodesMaterials_clearNodes : ∀ (cs : List SceneNode) (m : GLTFMaterial),
    m ∈ nodesMaterials (clearNodes cs) → ∃ m0, m = clearTextures m0
  | [], m, hm => by simp [clearNodes, nodesMaterials] at hm
  | c :: cs, m, hm => by
    simp only [clearNodes, nodesMaterials, List.mem_append] at hm
    cases hm with
    | inl h => exact nodeMaterials_clearNode c m h
    | inr h => exact nodesMaterials_clearNodes cs m h

end

/-- The yaw component after one single-touch move event. -/
theorem onSingleTouchMove_ry (s : RotationState) (dx dy : ℝ) :
    (onSingleTouchMove s dx dy).ry = s.ry + dx * 0.0004 := rfl

/-- The session stored by a pinch move event: freshly recorded when the
previous `initialDistance` was falsy, untouched otherwise. -/
theorem onPinchMove_session (pd : PinchSession) (zoom : JSNum) (t1 t2 : ℝ × ℝ) :
    (onPinchMove pd zoom t1 t2).session =
      if pd.initialDistance = none ∨ pd.initialDistance = some 0 then
        ⟨some (touchDistance t1 t2), some zoom⟩
      else pd := rfl

/-- The zoom stored by a pinch move event, in terms of the stored session:
the clamp of recorded initial zoom times (recorded initial distance over
current distance), in JavaScript arithmetic. -/
theorem onPinchMove_zoom (pd : PinchSession) (zoom : JSNum) (t1 t2 : ℝ × ℝ) :
    (onPinchMove pd zoom t1 t2).zoom =
      jsMax 0.5 (jsMin 12 (jsMul
        ((onPinchMove pd zoom t1 t2).session.initialZoom.getD (.real 0))
        (jsDivNum (.real ((onPinchMove pd zoom t1 t2).session.initialDistance.getD 0))
          (.real (touchDistance t1 t2))))) := rfl

/-- JavaScript division of genuine reals with nonzero divisor is exact. -/
theorem jsDivNum_real_real (a d : ℝ) (hd : d ≠ 0) :
    jsDivNum (.real a) (.real d) = .real (a / d) := by
  simp [jsDivNum, hd]

/-- JavaScript `0 / 0` is NaN. -/
theorem jsDivNum_zero_zero : jsDivNum (.real 0) (.real 0) = .nan := by
  simp [jsDivNum]

/-- NaN propagates through JavaScript multiplication. -/
theorem jsMul_real_nan (a : ℝ) : jsMul (.real a) .nan = .nan := rfl

/-- NaN propagates through `Math.min`. -/
theorem jsMin_nan (a : ℝ) : jsMin a .nan = .nan := rfl

/-- NaN propagates through `Math.max`. -/
theorem jsMax_nan (a : ℝ) : jsMax a .nan = .nan := rfl

/-- The JavaScript clamp of a genuine real is a genuine real in
`[0.5, 12]`. -/
theorem jsClamp_real_mem (z : JSNum) (hreal : ∃ r : ℝ, z = .real r) :
    ∃ x : ℝ, jsMax 0.5 (jsMin 12 z) = .real x ∧ 0.5 ≤ x ∧ x ≤ 12 := by
  obtain ⟨r, rfl⟩ := hreal
  exact ⟨max 0.5 (min 12 r), rfl, le_max_left _ _,
    max_le (by norm_num) (min_le_left _ _)⟩

end MotoApp

namespace MotoApp

/-! ## Claim theorems -/

/-- C1: For every mesh processed by the material classification pass,
exactly one category from the fixed set is assigned by the ordered
substring matching over the lower-cased material name and mesh name;
material name "Body_Paint_01" with mesh name "chassis" yields BodyPaint
(for any vertex count), mesh name "Front_Tire" with no matching material
name yields Rubber, a mesh with no matching keywords and vertex count 8000
yields BodyPaint, and one with vertex count 200 yields Default. -/
theorem claimC1_classifier_total_with_examples :
    (∀ (matName meshName : String) (v : Option Nat),
      ∃! c : MaterialCategory, classifyMesh matName meshName v = c) ∧
    (∀ v : Option Nat, classifyMesh "Body_Paint_01" "chassis" v = .BodyPaint) ∧
    classifyMesh "" "Front_Tire" none = .Rubber ∧
    classifyMesh "" "chassis" (some 8000) = .BodyPaint ∧
    classifyMesh "" "chassis" (some 200) = .Default := by
  refine ⟨fun matName meshName v => ⟨classifyMesh matName meshName v, rfl, fun c hc => hc.symm⟩,
    fun v => ?_, by decide, by decide, by decide⟩
  have h : nameIncludes (lowerName "Body_Paint_01") "body" = true := by decide
  simp [classifyMesh, h]

/-- C2 counterexample: a mesh whose mesh name matches Rubber's keyword
"tire" but whose vertex count exceeds 5000 is classified BodyPaint, not
Rubber — the vertex-count heuristic is not a fallback of last resort. -/
theorem claimC2_counterexample :
    classifyMesh "" "Front_Tire" (some 8000) = .BodyPaint ∧
    ¬ classifyMesh "" "Front_Tire" (some 8000) = .Rubber := by decide

/-- C2 amended: the vertex-count test is one disjunct of the first
(BodyPaint) branch, so every mesh whose vertex count exceeds 5000 is
classified BodyPaint, whatever its material and mesh names — even when a
later category's keywords match them. -/
theorem claimC2_amended_vertex_count_wins (matName meshName : String) (v : Nat)
    (hv : 5000 < v) :
    classifyMesh matName meshName (some v) = .BodyPaint := by
  simp [classifyMesh, vertexCountOver5000, hv]

/-- C2 amended, witness: the mesh named "Front_Tire" with 8000 vertices. -/
theorem claimC2_amended_witness :
    5000 < 8000 ∧ classifyMesh "" "Front_Tire" (some 8000) = .BodyPaint :=
  ⟨by decide, claimC2_amended_vertex_count_wins "" "Front_Tire" 8000 (by decide)⟩

/-- C6: after the Model Loader's success callback completes on any parsed
scene graph, every material of every mesh — including meshes whose
material slot holds an array — has all six texture slots equal to null. -/
theorem claimC6_all_textures_cleared (scene : SceneNode) (m : GLTFMaterial)
    (hm : m ∈ nodeMaterials (clearNode scene)) :
    m.map = none ∧ m.normalMap = none ∧ m.roughnessMap = none ∧
    m.metalnessMap = none ∧ m.aoMap = none ∧ m.emissiveMap = none := by
  obtain ⟨m0, rfl⟩ := nodeMaterials_clearNode scene m hm
  exact clearTextures_slots m0

/-- C6 witness: the cleared sample material inside the cleared sample
scene, whose "hull" mesh carries an array material slot. -/
theorem claimC6_witness :
    sampleClearedMaterial ∈ nodeMaterials (clearNode sampleScene) ∧
    (sampleClearedMaterial.map = none ∧ sampleClearedMaterial.normalMap = none ∧
     sampleClearedMaterial.roughnessMap = none ∧ sampleClearedMaterial.metalnessMap = none ∧
     sampleClearedMaterial.aoMap = none ∧ sampleClearedMaterial.emissiveMap = none) :=
  ⟨by decide, claimC6_all_textures_cleared sampleScene sampleClearedMaterial (by decide)⟩

/-- C3: after every single-touch move event, from any prior state and for
arbitrary cumulative displacements, the stored pitch `rotationRef.current.x`
lies in `[-π/3, π/3]` and the value applied to the model's `rotation.x`
equals that clamped stored value.  Holding for every incoming state, this
holds after each event of any event sequence. -/
theorem claimC3_pitch_always_clamped (s : RotationState) (dx dy : ℝ) :
    (-(Real.pi / 3) ≤ (onSingleTouchMove s dx dy).rx ∧
      (onSingleTouchMove s dx dy).rx ≤ Real.pi / 3) ∧
    (onSingleTouchMove s dx dy).modelRx = (onSingleTouchMove s dx dy).rx := by
  refine ⟨⟨le_max_left _ _, max_le ?_ (min_le_left _ _)⟩, rfl⟩
  have h := Real.pi_pos
  linarith

/-- C4 counterexample: on the first frame of a pinch with coincident touch
points, the inter-point distance is 0, the falsy check records
`initialDistance = 0`, and the source computes `0 / 0 = NaN`, which
`Math.min(12, ·)` and `Math.max(0.5, ·)` propagate — the stored zoom is
NaN, not a value in `[0.5, 12]`. -/
theorem claimC4_counterexample :
    ¬ (∃ x : ℝ,
        (onPinchMove ⟨none, none⟩ (.real 2) ((5 : ℝ), (5 : ℝ)) ((5 : ℝ), (5 : ℝ))).zoom
          = .real x ∧ 0.5 ≤ x ∧ x ≤ 12) := by
  have hd : touchDistance ((5 : ℝ), (5 : ℝ)) ((5 : ℝ), (5 : ℝ)) = 0 := by
    simp [touchDistance]
  have hz : (onPinchMove ⟨none, none⟩ (.real 2) ((5 : ℝ), (5 : ℝ)) ((5 : ℝ), (5 : ℝ))).zoom
      = .nan := by
    rw [onPinchMove_zoom, onPinchMove_session, if_pos (Or.inl rfl), hd]
    show jsMax 0.5 (jsMin 12 (jsMul (JSNum.real 2) (jsDivNum (.real 0) (.real 0)))) = .nan
    rw [jsDivNum_zero_zero, jsMul_real_nan, jsMin_nan, jsMax_nan]
  rw [hz]
  rintro ⟨x, hx, -⟩
  exact JSNum.noConfusion hx

/-- C4 amended: after every two-touch pinch move event whose touch points
are not coincident (nonzero current pinch distance) and whose zoom state
and recorded initial zoom are genuine numbers — as on every reachable state
into which no NaN was previously stored — the stored zoom factor is a
genuine number in `[0.5, 12]`, and it equals the JavaScript clamp of the
recorded initial zoom times (recorded initial pinch distance / current
pinch distance); with coincident touch points on a fresh pinch frame the
source instead computes `0 / 0 = NaN` and stores NaN. -/
theorem claimC4_amended_zoom_clamped (pd : PinchSession) (zoom : JSNum) (t1 t2 : ℝ × ℝ)
    (hz : ∃ zr : ℝ, zoom = .real zr)
    (hinit : pd.initialZoom = none ∨ ∃ ir : ℝ, pd.initialZoom = some (.real ir))
    (hd : touchDistance t1 t2 ≠ 0) :
    (∃ x : ℝ, (onPinchMove pd zoom t1 t2).zoom = .real x ∧ 0.5 ≤ x ∧ x ≤ 12) ∧
    (onPinchMove pd zoom t1 t2).zoom =
      jsMax 0.5 (jsMin 12 (jsMul
        ((onPinchMove pd zoom t1 t2).session.initialZoom.getD (.real 0))
        (jsDivNum (.real ((onPinchMove pd zoom t1 t2).session.initialDistance.getD 0))
          (.real (touchDistance t1 t2))))) := by
  refine ⟨?_, onPinchMove_zoom pd zoom t1 t2⟩
  rw [onPinchMove_zoom]
  apply jsClamp_real_mem
  rw [onPinchMove_session, jsDivNum_real_real _ _ hd]
  obtain ⟨zr, rfl⟩ := hz
  by_cases hf : pd.initialDistance = none ∨ pd.initialDistance = some 0
  · rw [if_pos hf]
    exact ⟨zr * (touchDistance t1 t2 / touchDistance t1 t2), rfl⟩
  · rw [if_neg hf]
    obtain hnone | ⟨ir, hir⟩ := hinit
    · rw [hnone]
      exact ⟨0 * (pd.initialDistance.getD 0 / touchDistance t1 t2), rfl⟩
    · rw [hir]
      exact ⟨ir * (pd.initialDistance.getD 0 / touchDistance t1 t2), rfl⟩

/-- C4 amended, witness: a fresh pinch with touches at (0,0) and (3,4)
(distance 5) from the initial zoom 2. -/
theorem claimC4_amended_witness :
    ((∃ zr : ℝ, JSNum.real 2 = JSNum.real zr) ∧
     ((⟨none, none⟩ : PinchSession).initialZoom = none ∨
       ∃ ir : ℝ, (⟨none, none⟩ : PinchSession).initialZoom = some (.real ir)) ∧
     touchDistance ((0 : ℝ), (0 : ℝ)) ((3 : ℝ), (4 : ℝ)) ≠ 0) ∧
    ((∃ x : ℝ,
        (onPinchMove ⟨none, none⟩ (.real 2) ((0 : ℝ), (0 : ℝ)) ((3 : ℝ), (4 : ℝ))).zoom
          = .real x ∧ 0.5 ≤ x ∧ x ≤ 12) ∧
     (onPinchMove ⟨none, none⟩ (.real 2) ((0 : ℝ), (0 : ℝ)) ((3 : ℝ), (4 : ℝ))).zoom =
       jsMax 0.5 (jsMin 12 (jsMul
         ((onPinchMove ⟨none, none⟩ (.real 2) ((0 : ℝ), (0 : ℝ)) ((3 : ℝ), (4 : ℝ))).session.initialZoom.getD (.real 0))
         (jsDivNum (.real ((onPinchMove ⟨none, none⟩ (.real 2) ((0 : ℝ), (0 : ℝ)) ((3 : ℝ), (4 : ℝ))).session.initialDistance.getD 0))
           (.real (touchDistance ((0 : ℝ), (0 : ℝ)) ((3 : ℝ), (4 : ℝ)))))))) := by
  have hpos : (0 : ℝ) < touchDistance ((0 : ℝ), (0 : ℝ)) ((3 : ℝ), (4 : ℝ)) := by
    apply Real.sqrt_pos.mpr
    show (0 : ℝ) < ((3 : ℝ) - 0) ^ 2 + ((4 : ℝ) - 0) ^ 2
    norm_num
  exact ⟨⟨⟨2, rfl⟩, Or.inl rfl, hpos.ne'⟩,
    claimC4_amended_zoom_clamped ⟨none, none⟩ (.real 2) ((0 : ℝ), (0 : ℝ)) ((3 : ℝ), (4 : ℝ))
      ⟨2, rfl⟩ (Or.inl rfl) hpos.ne'⟩

/-- C5: a single-touch drag delivering one move event with cumulative
displacement (dx = 100, dy = 0) increases the yaw by exactly `100 * 0.0004`
radians relative to its value at gesture start, and leaves the pitch
unchanged (the gesture-start pitch lying in the clamped range, as every
reachable pitch does). -/
theorem claimC5_drag_dx100 (x0 y0 mrx mry : ℝ)
    (hlo : -(Real.pi / 3) ≤ x0) (hhi : x0 ≤ Real.pi / 3) :
    (onSingleTouchMove ⟨x0, y0, mrx, mry⟩ 100 0).modelRy = y0 + 100 * 0.0004 ∧
    (onSingleTouchMove ⟨x0, y0, mrx, mry⟩ 100 0).modelRx = x0 := by
  unfold onSingleTouchMove
  constructor
  · norm_num
  · show max (-(Real.pi / 3)) (min (Real.pi / 3) (x0 + 0 * ((0.0004 : ℝ) - 0.0003))) = x0
    rw [show x0 + 0 * ((0.0004 : ℝ) - 0.0003) = x0 by ring, min_eq_right hhi,
      max_eq_right hlo]

/-- C5 witness: the drag applied from the rest state. -/
theorem claimC5_witness :
    (-(Real.pi / 3) ≤ (0 : ℝ) ∧ (0 : ℝ) ≤ Real.pi / 3) ∧
    ((onSingleTouchMove ⟨0, 0, 0, 0⟩ 100 0).modelRy = 0 + 100 * 0.0004 ∧
     (onSingleTouchMove ⟨0, 0, 0, 0⟩ 100 0).modelRx = 0) := by
  have h := Real.pi_pos
  have hlo : -(Real.pi / 3) ≤ (0 : ℝ) := by linarith
  have hhi : (0 : ℝ) ≤ Real.pi / 3 := by linarith
  exact ⟨⟨hlo, hhi⟩, claimC5_drag_dx100 0 0 0 0 hlo hhi⟩

/-- C7: whenever model loading fails, the failure handler leaves the
loading state no longer Loading, records the error, and adds to the scene
the fallback model — a non-empty group of exactly 4 child meshes, built
from primitive box geometry only by the total function
`createFallbackModel` — setting the model reference to it. -/
theorem claimC7_failure_adds_fallback (msg : String) (s : ViewerState) :
    (onModelLoadFailure msg s).loading = false ∧
    (onModelLoadFailure msg s).error = some msg ∧
    fallbackModel ∈ (onModelLoadFailure msg s).sceneChildren ∧
    (onModelLoadFailure msg s).bikeModel = some fallbackModel ∧
    childMeshCount fallbackModel = 4 ∧ 4 ≤ childCount fallbackModel ∧
    onlyBoxGeometry fallbackModel = true := by
  refine ⟨rfl, rfl, ?_, rfl, rfl, by norm_num [fallbackModel, childCount], rfl⟩
  simp [onModelLoadFailure, createFallbackModel]

/-- C8 counterexample: applying the first pinch move event from the initial
state repositions the camera to y = 0.75 looking at y = -0.3, which differ
from the values established at camera setup (y = 0.4, look-at y = -0.2),
so the x/y position and look-at target do not remain equal to their
pre-gesture setup values. -/
theorem claimC8_counterexample :
    ¬ ((onPinchMove ⟨none, none⟩ initialZoomFactor ((0 : ℝ), (0 : ℝ)) ((3 : ℝ), (4 : ℝ))).camera.position.y
        = initialCamera.position.y ∧
      (onPinchMove ⟨none, none⟩ initialZoomFactor ((0 : ℝ), (0 : ℝ)) ((3 : ℝ), (4 : ℝ))).camera.lookTarget.y
        = initialCamera.lookTarget.y) := by
  rintro ⟨h1, -⟩
  have h2 : JSNum.real 0.75 = JSNum.real 0.4 := h1
  injection h2 with h3
  norm_num at h3

/-- C8 amended: on every pinch move event only the camera's z coordinate
varies, as `4.0 * zoom / 2.0` of the clamped zoom; the x and y coordinates
and the look-at target are set to the fixed constants `(1.0, 0.75)` and
`(1.0, -0.3, 0)` — identical across all pinch events, though not equal to
the values established at camera setup. -/
theorem claimC8_amended_camera_constants (pd : PinchSession) (zoom : JSNum) (t1 t2 : ℝ × ℝ) :
    (onPinchMove pd zoom t1 t2).camera.position.x = .real 1.0 ∧
    (onPinchMove pd zoom t1 t2).camera.position.y = .real 0.75 ∧
    (onPinchMove pd zoom t1 t2).camera.position.z =
      jsDivNum (jsMul (.real 4.0) (onPinchMove pd zoom t1 t2).zoom) (.real 2.0) ∧
    (onPinchMove pd zoom t1 t2).camera.lookTarget.x = 1.0 ∧
    (onPinchMove pd zoom t1 t2).camera.lookTarget.y = -0.3 ∧
    (onPinchMove pd zoom t1 t2).camera.lookTarget.z = 0 :=
  ⟨rfl, rfl, rfl, rfl, rfl, rfl⟩

/-- C9: the code evaluated at the failing input — the `render` closure
schedules the next animation-frame callback unconditionally, its first
statement being `requestAnimationFrame(render)`, so a frame arriving after
the component has unmounted (`mounted = false`) still reschedules the loop;
no teardown path ever stops it, contradicting the claim. -/
theorem claimC9_reschedules_after_unmount :
    (renderFrame
      { mounted := false, autoRotate := true, modelPresent := true,
        modelYaw := 0, framesDrawn := 0, nextFrameScheduled := false }).nextFrameScheduled
      = true := rfl

/-- C10: each single-touch move event adds sensitivity times the cumulative
displacement `gestureState.dx` to the persisted yaw, so a drag delivering
events with cumulative horizontal displacements dx_1, ..., dx_n leaves the
yaw at its gesture-start value plus `0.0004 * (dx_1 + ... + dx_n)` — and
for the displacement sequence 50, 100 this differs from the gesture-start
value plus `0.0004 * 100`. -/
theorem claimC10_yaw_accumulates_cumulative_displacements :
    (∀ (s : RotationState) (evs : List (ℝ × ℝ)),
      (evs.foldl (fun st e => onSingleTouchMove st e.1 e.2) s).ry =
        s.ry + 0.0004 * (evs.map Prod.fst).sum) ∧
    (∀ s : RotationState,
      (([(50, 0), (100, 0)] : List (ℝ × ℝ)).foldl
          (fun st e => onSingleTouchMove st e.1 e.2) s).ry ≠
        s.ry + 0.0004 * 100) := by
  have key : ∀ (evs : List (ℝ × ℝ)) (s : RotationState),
      (evs.foldl (fun st e => onSingleTouchMove st e.1 e.2) s).ry =
        s.ry + 0.0004 * (evs.map Prod.fst).sum := by
    intro evs
    induction evs with
    | nil => intro s; simp
    | cons e t ih =>
      intro s
      rw [List.foldl_cons, ih, onSingleTouchMove_ry]
      simp [List.map_cons, List.sum_cons]
      ring
  refine ⟨fun s evs => key evs s, fun s => ?_⟩
  rw [key]
  simp only [List.map_cons, List.map_nil, List.sum_cons, List.sum_nil]
  intro h
  have : (0.0004 : ℝ) * (50 + (100 + 0)) = 0.0004 * 100 := by linarith
  norm_num at this

end MotoApp
